import Mathlib

/-!
Verification of the 8020-Transcriber job-orchestration subsystem.

The definitions below are a shallow embedding of the Python sources:
 - `extractVideoId` embeds `extract_video_id` (src/celery_app.py, lines 25-31),
   a backtracking search for the regex
   `(?:youtube\.com\/(?:[^\/]+\/.+\/|(?:v|e(?:mbed)?)\/|.*[?&]v=)|youtu\.be\/)([^\"&?\/\s]{11})`
   with Python `re.search` semantics (leftmost match position, leftmost-first
   alternation, greedy quantifiers with backtracking).  Character classes are
   modelled over the ASCII range (`\s` as Python's ASCII whitespace set).
 - `processUrl` and `transcribeVideosRun` embed the body of the Celery task
   `transcribe_videos` (src/celery_app.py, lines 34-112): the per-URL loop and
   the job status writes, for runs in which no infrastructure exception is
   raised (per-item fetch failures are values of `FetchResult`, matching the
   inner try/except of lines 75-92; callback delivery failure is absorbed by
   the inner try/except of lines 101-110).
 - `handleTaskException` embeds the outer exception handler
   (src/celery_app.py, lines 114-122) together with Celery's
   `self.retry(countdown=60 * 2 ** retries)` / `max_retries=3` behaviour.
 - `cancelJob` embeds the DELETE endpoint `cancel_job` (src/app.py,
   lines 186-211).
-/

/-- Python ASCII whitespace, the ASCII part of the regex class `\s`. -/
def isPyWhite (c : Char) : Bool :=
  c = ' ' || c = '\t' || c = '\n' || c = '\r' || c = '\x0b' || c = '\x0c'

/-- Characters admitted by the capture group class `[^\"&?\/\s]`. -/
def isTokenChar (c : Char) : Bool :=
  !(c = '"' || c = '&' || c = '?' || c = '/' || isPyWhite c)

/-- Class `[^\/]`: any character other than a slash. -/
def notSlash (c : Char) : Bool := !(c = '/')

/-- Class `.`: any character except a newline (Python `re` without DOTALL). -/
def notNewline (c : Char) : Bool := !(c = '\n')

/-- First-success choice on options, used for alternation and backtracking. -/
def oor : Option (List Char) → Option (List Char) → Option (List Char)
  | some v, _ => some v
  | none, b => b

/-- Consume the literal `pat` at the front of `s`, returning the remainder. -/
def dropLit : List Char → List Char → Option (List Char)
  | [], s => some s
  | _ :: _, [] => none
  | p :: ps, c :: cs => if c = p then dropLit ps cs else none

/-- Greedy `p*` followed by the continuation `k`, with backtracking: the
longest run of `p`-characters is consumed first, then shorter ones. -/
def starBT (p : Char → Bool) (k : List Char → Option (List Char)) :
    List Char → Option (List Char)
  | [] => k []
  | c :: cs =>
    if p c then oor (starBT p k cs) (k (c :: cs)) else k (c :: cs)

/-- Greedy `p+` followed by the continuation `k`, with backtracking. -/
def plusBT (p : Char → Bool) (k : List Char → Option (List Char)) :
    List Char → Option (List Char)
  | [] => none
  | c :: cs => if p c then starBT p k cs else none

/-- The capture group `([^\"&?\/\s]{11})`: exactly eleven admissible
characters at the front of `s`; the captured token is returned. -/
def matchGroup (s : List Char) : Option (List Char) :=
  if 11 ≤ s.length ∧ (s.take 11).all isTokenChar = true then some (s.take 11)
  else none

/-- Literal `\/` then continuation: used for the slashes in the pattern. -/
def slashThen (k : List Char → Option (List Char)) (r : List Char) :
    Option (List Char) :=
  match r with
  | c :: r2 => if c = '/' then k r2 else none
  | [] => none

/-- Continuation for alternative `[^\/]+\/.+\/`, entered after the first
slash: `.+` then `\/` then the capture group. -/
def altAinner (r2 : List Char) : Option (List Char) :=
  plusBT notNewline (slashThen matchGroup) r2

/-- Alternative `[^\/]+\/.+\/` followed by the capture group. -/
def altA (s : List Char) : Option (List Char) :=
  plusBT notSlash (slashThen altAinner) s

/-- Alternative `(?:v|e(?:mbed)?)\/` followed by the capture group; the
branches are tried in the regex order `v/`, `embed/`, `e/`. -/
def altB (s : List Char) : Option (List Char) :=
  oor ((dropLit (("v/").data) s).bind matchGroup)
    (oor ((dropLit (("embed/").data) s).bind matchGroup)
      ((dropLit (("e/").data) s).bind matchGroup))

/-- Continuation for alternative `.*[?&]v=`: one character of `[?&]`, the
literal `v=`, then the capture group. -/
def qvEq (r : List Char) : Option (List Char) :=
  match r with
  | c :: r2 =>
    if c = '?' ∨ c = '&' then (dropLit (("v=").data) r2).bind matchGroup
    else none
  | [] => none

/-- Alternative `.*[?&]v=` followed by the capture group. -/
def altC (s : List Char) : Option (List Char) := starBT notNewline qvEq s

/-- Top-level alternative `youtu\.be\/` followed by the capture group. -/
def tryYoutuBe (s : List Char) : Option (List Char) :=
  match dropLit (("youtu.be/").data) s with
  | some r => matchGroup r
  | none => none

/-- Attempt the whole pattern at one position of the subject string. -/
def matchAt (s : List Char) : Option (List Char) :=
  match dropLit (("youtube.com/").data) s with
  | some r => oor (altA r) (oor (altB r) (oor (altC r) (tryYoutuBe s)))
  | none => tryYoutuBe s

/-- `re.search`: try the pattern at each position, leftmost first. -/
def searchFrom : List Char → Option (List Char)
  | [] => matchAt []
  | c :: rest => oor (matchAt (c :: rest)) (searchFrom rest)

/-- Embedding of `extract_video_id` (src/celery_app.py, lines 25-31) on
character lists: the captured 11-character token, or `none`. -/
def extractVideoId (url : List Char) : Option (List Char) := searchFrom url

/-- String-level wrapper of `extractVideoId`. -/
def extract_video_id (url : String) : Option String :=
  (searchFrom url.data).map fun cs => String.mk cs

/-- Job status values (src/models.py, line 13, plus the `cancelled` value
written by src/app.py line 201). -/
inductive JobStatus
  | pending
  | processing
  | completed
  | failed
  | cancelled
deriving DecidableEq

/-- Transcript status values (src/models.py, line 43). -/
inductive TranscriptStatus
  | pending
  | completed
  | failed
deriving DecidableEq

/-- The Job record (src/models.py, lines 8-32); timestamps are modelled as
naturals, only `updated_at` is relevant to the claims. -/
structure Job where
  id : List Char
  status : JobStatus
  updated_at : Nat
  callback_url : Option (List Char)
  error_message : Option (List Char)
deriving DecidableEq

/-- The Transcript record (src/models.py, lines 34-69). -/
structure Transcript where
  job_id : List Char
  url : List Char
  video_id : Option (List Char)
  transcript_data : Option (List Char)
  status : TranscriptStatus
  error_message : Option (List Char)
deriving DecidableEq

/-- Outcome of `YouTubeTranscriptApi.get_transcript`: either the serialized
transcript payload, or the text of the raised exception (the per-item
try/except of src/celery_app.py lines 75-92 turns it into a value). -/
inductive FetchResult
  | ok (data : List Char)
  | err (msg : List Char)
deriving DecidableEq

/-- Observable side effects of one task run, in program order. -/
inductive Event
  | createTranscript (url : List Char) (video_id : Option (List Char))
      (status : TranscriptStatus)
  | fetchCall (video_id : List Char)
  | callbackPost (url : List Char) (delivered : Bool)
deriving DecidableEq

/-- Whether an event is the insertion of a Transcript row. -/
def isCreateEvent : Event → Bool
  | Event.createTranscript _ _ _ => true
  | _ => false

/-- Lower-casing of the error text, `error_str.lower()` (ASCII). -/
def lowerStr (s : List Char) : List Char := s.map Char.toLower

/-- Python's `pat in s` on strings: `pat` occurs contiguously in `s`. -/
def containsSub : List Char → List Char → Bool
  | s, pat =>
    if pat.isPrefixOf s then true
    else
      match s with
      | [] => false
      | _ :: rest => containsSub rest pat

/-- Classifier of src/celery_app.py line 86: the failure text, lower-cased,
contains one of the known no-captions substrings. -/
def isNoCaptionsError (msg : List Char) : Bool :=
  containsSub (lowerStr msg) (("no element found").data) ||
  containsSub (lowerStr msg) (("not available").data)

/-- The curated hint message of src/celery_app.py line 87. -/
def noCaptionsHint : List Char :=
  ("Video has no captions available (try videos from TED Talks, Khan Academy, or news channels)").data

/-- The extraction-failure message of src/celery_app.py line 70. -/
def invalidUrlMsg : List Char := ("Invalid YouTube URL").data

/-- Error-message selection of src/celery_app.py lines 84-89. -/
def classifyFetchError (msg : List Char) : List Char :=
  if isNoCaptionsError msg then noCaptionsHint else msg

/-- One iteration of the per-URL loop (src/celery_app.py, lines 60-92):
the Transcript row is inserted (status defaults to pending, src/models.py
line 43) before any fetch; on extraction failure the fetch collaborator is
not called; fetch failures are classified.  Returns the final state of the
row and the emitted events in program order. -/
def processUrl (fetch : List Char → FetchResult) (job_id url : List Char) :
    Transcript × List Event :=
  match extractVideoId url with
  | none =>
    ({ job_id := job_id, url := url, video_id := none, transcript_data := none,
       status := TranscriptStatus.failed, error_message := some invalidUrlMsg },
     [Event.createTranscript url none TranscriptStatus.pending])
  | some v =>
    match fetch v with
    | FetchResult.ok data =>
      ({ job_id := job_id, url := url, video_id := some v,
         transcript_data := some data, status := TranscriptStatus.completed,
         error_message := none },
       [Event.createTranscript url (some v) TranscriptStatus.pending,
        Event.fetchCall v])
    | FetchResult.err msg =>
      ({ job_id := job_id, url := url, video_id := some v,
         transcript_data := none, status := TranscriptStatus.failed,
         error_message := some (classifyFetchError msg) },
       [Event.createTranscript url (some v) TranscriptStatus.pending,
        Event.fetchCall v])

/-- Retry decision of the exception handler. -/
inductive RetryOutcome
  | retried (countdown : Nat)
  | exhausted
deriving DecidableEq

/-- Everything observable about one exception-free run of the task body. -/
structure RunResult where
  job : Option Job
  transcripts : List Transcript
  events : List Event
  statusWrites : List JobStatus
  callbackAttempted : Bool
  retrySignal : Option RetryOutcome
deriving DecidableEq

/-- The task body of `transcribe_videos` (src/celery_app.py, lines 46-112)
for runs in which no infrastructure exception is raised.  `store` is the
Job row found by `Job.query.get(job_id)`; if absent the task returns
early (lines 49-51).  Otherwise the status is set to `processing`
unconditionally (line 54), every URL is processed (lines 60-92), the job
is completed (lines 95-97), and the callback, when a URL is present, is
posted once; its outcome `callbackOk` is absorbed by the inner
try/except (lines 100-110) and affects nothing but the event log. -/
def transcribeVideosRun (fetch : List Char → FetchResult) (store : Option Job)
    (job_id : List Char) (urls : List (List Char))
    (callback_url : Option (List Char)) (now : Nat) (callbackOk : Bool) :
    RunResult :=
  match store with
  | none =>
    { job := none, transcripts := [], events := [], statusWrites := [],
      callbackAttempted := false, retrySignal := none }
  | some job0 =>
    let job1 : Job := { job0 with status := JobStatus.processing }
    let transcripts := urls.map fun u => (processUrl fetch job_id u).1
    let evs := (urls.map fun u => (processUrl fetch job_id u).2).flatten
    let job2 : Job :=
      { job1 with status := JobStatus.completed, updated_at := now }
    match callback_url with
    | some cb =>
      { job := some job2, transcripts := transcripts,
        events := evs ++ [Event.callbackPost cb callbackOk],
        statusWrites := [JobStatus.processing, JobStatus.completed],
        callbackAttempted := true, retrySignal := none }
    | none =>
      { job := some job2, transcripts := transcripts, events := evs,
        statusWrites := [JobStatus.processing, JobStatus.completed],
        callbackAttempted := false, retrySignal := none }

/-- Celery's `max_retries` for the task (src/celery_app.py, line 34). -/
def maxRetries : Nat := 3

/-- Result of the outer exception handler: the handler itself raises an
AttributeError when the re-loaded job is `None` (src/celery_app.py,
lines 115-116 dereference without a null check), otherwise it persists
the failed job and signals the queue. -/
inductive HandlerResult
  | raised
  | handled (job : Job) (outcome : RetryOutcome)
deriving DecidableEq

/-- The exception handler of `transcribe_videos` (src/celery_app.py, lines
114-122): re-load the job by id, set status failed with the exception
text, commit, then `self.retry(countdown=60 * 2 ** retries)`, which
requeues the task while `retries < max_retries` and otherwise raises
MaxRetriesExceededError, leaving the job permanently failed. -/
def handleTaskException (store : Option Job) (excMsg : List Char)
    (retries : Nat) : HandlerResult :=
  match store with
  | none => HandlerResult.raised
  | some j =>
    HandlerResult.handled
      { j with status := JobStatus.failed, error_message := some excMsg }
      (if retries < maxRetries then RetryOutcome.retried (60 * 2 ^ retries)
       else RetryOutcome.exhausted)

/-- The DELETE endpoint `cancel_job` (src/app.py, lines 186-211): 404 when
the job is absent; 400 and no change unless the status is pending or
processing; otherwise the status becomes cancelled and the timestamp is
updated, with a 200 response. -/
def cancelJob (store : Option Job) (now : Nat) : Nat × Option Job :=
  match store with
  | none => (404, none)
  | some j =>
    if j.status = JobStatus.pending ∨ j.status = JobStatus.processing then
      (200, some { j with status := JobStatus.cancelled, updated_at := now })
    else (400, some j)

/-- Eleven admissible token characters sit at the front of `s`. -/
def tokenHead11 (s : List Char) : Bool :=
  decide (11 ≤ s.length) && (s.take 11).all isTokenChar

/-- The literal `pat` occurs somewhere in the string, immediately followed
by an 11-character token. -/
def hasFormTok (pat : List Char) : List Char → Bool
  | [] =>
    (match dropLit pat [] with
     | some r => tokenHead11 r
     | none => false)
  | c :: rest =>
    (match dropLit pat (c :: rest) with
     | some r => tokenHead11 r
     | none => false) || hasFormTok pat rest

/-- Modelled from the spec: the URL contains one of the four forms the spec
lists for identifier extraction — `watch?v=ID`, `youtu.be/ID`, `embed/ID`,
`v/ID` with ID an 11-character token.  Used to compare the spec's
description of extraction with the source's `extractVideoId`. -/
def specListedForm (url : List Char) : Bool :=
  hasFormTok (("watch?v=").data) url || hasFormTok (("youtu.be/").data) url ||
  hasFormTok (("embed/").data) url || hasFormTok (("v/").data) url

/-- Fixture: a pending job, used in witnesses. -/
def jobPendingW : Job :=
  { id := ("job-1").data, status := JobStatus.pending, updated_at := 0,
    callback_url := none, error_message := none }

/-- Fixture: a completed job, used in witnesses. -/
def jobCompletedW : Job :=
  { id := ("job-2").data, status := JobStatus.completed, updated_at := 0,
    callback_url := none, error_message := none }

/-- Fixture: a cancelled job, used for the status-regression run. -/
def jobCancelledW : Job :=
  { id := ("job-3").data, status := JobStatus.cancelled, updated_at := 0,
    callback_url := none, error_message := none }

/-- Fixture: a fetch collaborator that always fails with a fixed text. -/
def fetchErrW : List Char → FetchResult :=
  fun _ => FetchResult.err (("not available").data)

@[simp]
theorem oor_some (v : List Char) (b : Option (List Char)) :
    oor (some v) b = some v := rfl

@[simp]
theorem oor_none (b : Option (List Char)) : oor none b = b := rfl

theorem dropLit_self (p s : List Char) : dropLit p (p ++ s) = some s := by
  induction p with
  | nil => rfl
  | cons c cs ih => simp [dropLit, ih]

theorem dropLit_cons_ne {a c : Char} (p s : List Char) (h : ¬ c = a) :
    dropLit (a :: p) (c :: s) = none := by
  simp [dropLit, h]

theorem suffix_head_mem {c : Char} {r s : List Char} (h : (c :: r) <:+ s) :
    c ∈ s := by
  obtain ⟨pre, rfl⟩ := h
  simp

theorem starBT_all_fail {p : Char → Bool} {k : List Char → Option (List Char)}
    {s : List Char} (h : ∀ r, r <:+ s → k r = none) : starBT p k s = none := by
  induction s with
  | nil => exact h [] (List.suffix_refl [])
  | cons c cs ih =>
    have hcs : ∀ r, r <:+ cs → k r = none :=
      fun r hr => h r (hr.trans (List.suffix_cons c cs))
    cases hpc : p c with
    | false => simpa [starBT, hpc] using h (c :: cs) (List.suffix_refl _)
    | true =>
      simp [starBT, hpc, ih hcs, h (c :: cs) (List.suffix_refl _)]

theorem plusBT_all_fail {p : Char → Bool} {k : List Char → Option (List Char)}
    {s : List Char} (h : ∀ r, r <:+ s → k r = none) : plusBT p k s = none := by
  cases s with
  | nil => rfl
  | cons c cs =>
    cases hpc : p c with
    | false => simp [plusBT, hpc]
    | true =>
      simp only [plusBT, hpc, if_true]
      exact starBT_all_fail fun r hr => h r (hr.trans (List.suffix_cons c cs))

theorem starBT_cons_skip {p : Char → Bool} {k : List Char → Option (List Char)}
    {c : Char} {cs : List Char} (hp : p c = true) (hk : k (c :: cs) = none) :
    starBT p k (c :: cs) = starBT p k cs := by
  cases hrec : starBT p k cs with
  | none => simp [starBT, hp, hrec, hk]
  | some v => simp [starBT, hp, hrec]

theorem token_char_ne {t : List Char} (ht : t.all isTokenChar = true)
    {c : Char} (hc : c ∈ t) {d : Char} (hd : isTokenChar d = false) :
    ¬ c = d := by
  intro h
  have h1 := List.all_eq_true.mp ht c hc
  rw [h, hd] at h1
  exact Bool.noConfusion h1

theorem slashThen_all_fail {k : List Char → Option (List Char)}
    {s : List Char} (hs : ∀ c ∈ s, ¬ c = '/') :
    ∀ r, r <:+ s → slashThen k r = none := by
  intro r hr
  cases r with
  | nil => rfl
  | cons c r2 =>
    have hc : c ∈ s := suffix_head_mem hr
    simp [slashThen, hs c hc]

theorem slashThen_cons_ne {k : List Char → Option (List Char)} {c : Char}
    (r : List Char) (h : ¬ c = '/') : slashThen k (c :: r) = none := by
  simp [slashThen, h]

theorem qvEq_all_fail {s : List Char}
    (hs : ∀ c ∈ s, ¬ c = '?' ∧ ¬ c = '&') :
    ∀ r, r <:+ s → qvEq r = none := by
  intro r hr
  cases r with
  | nil => rfl
  | cons c r2 =>
    have hc : c ∈ s := suffix_head_mem hr
    have := hs c hc
    simp [qvEq, this.1, this.2]

theorem qvEq_cons_ne {c : Char} (r : List Char) (h1 : ¬ c = '?')
    (h2 : ¬ c = '&') : qvEq (c :: r) = none := by
  simp [qvEq, h1, h2]

theorem matchGroup_token {t : List Char} (h1 : 11 ≤ t.length)
    (h2 : t.all isTokenChar = true) : matchGroup t = some (t.take 11) := by
  have h3 : (t.take 11).all isTokenChar = true := by
    rw [List.all_eq_true] at h2 ⊢
    exact fun c hc => h2 c (List.take_subset _ _ hc)
  simp [matchGroup, h1, h3]

theorem altAinner_token {t : List Char} (h2 : t.all isTokenChar = true) :
    altAinner t = none :=
  plusBT_all_fail (slashThen_all_fail fun c hc =>
    token_char_ne h2 hc (by decide))

theorem altA_no_slash {s : List Char} (hs : ∀ c ∈ s, ¬ c = '/') :
    altA s = none :=
  plusBT_all_fail (slashThen_all_fail hs)

theorem altB_head_ne {c : Char} (s : List Char) (h1 : ¬ c = 'v')
    (h2 : ¬ c = 'e') : altB (c :: s) = none := by
  have b1 : dropLit (("v/").data) (c :: s) = none := dropLit_cons_ne _ _ h1
  have b2 : dropLit (("embed/").data) (c :: s) = none := dropLit_cons_ne _ _ h2
  have b3 : dropLit (("e/").data) (c :: s) = none := dropLit_cons_ne _ _ h2
  simp [altB, b1, b2, b3]

theorem matchAt_not_y {c : Char} (s : List Char) (h : ¬ c = 'y') :
    matchAt (c :: s) = none := by
  have h1 : dropLit (("youtube.com/").data) (c :: s) = none :=
    dropLit_cons_ne _ _ h
  have h2 : dropLit (("youtu.be/").data) (c :: s) = none :=
    dropLit_cons_ne _ _ h
  simp [matchAt, tryYoutuBe, h1, h2]

theorem searchFrom_append_skip (pre s : List Char)
    (h : ∀ c ∈ pre, ¬ c = 'y') : searchFrom (pre ++ s) = searchFrom s := by
  induction pre with
  | nil => rfl
  | cons c cs ih =>
    have hc : ¬ c = 'y' := h c (by simp)
    have hm : matchAt (c :: (cs ++ s)) = none := matchAt_not_y _ hc
    have hrest : ∀ d ∈ cs, ¬ d = 'y' := fun d hd => h d (by simp [hd])
    calc searchFrom ((c :: cs) ++ s) = searchFrom (cs ++ s) := by
          simp [searchFrom, hm]
      _ = searchFrom s := ih hrest

theorem searchFrom_cons_found {c : Char} {s : List Char} {v : List Char}
    (h : matchAt (c :: s) = some v) : searchFrom (c :: s) = some v := by
  simp [searchFrom, h]

theorem plusBT_cons_true {p : Char → Bool} {k : List Char → Option (List Char)}
    {c : Char} {cs : List Char} (hp : p c = true) :
    plusBT p k (c :: cs) = starBT p k cs := by
  simp [plusBT, hp]

theorem starBT_cons_false {p : Char → Bool} {k : List Char → Option (List Char)}
    {c : Char} {cs : List Char} (hp : p c = false) :
    starBT p k (c :: cs) = k (c :: cs) := by
  simp [starBT, hp]

theorem slashThen_cons_slash {k : List Char → Option (List Char)}
    (r : List Char) : slashThen k ('/' :: r) = k r := by
  simp [slashThen]

theorem starBT_cons_true {p : Char → Bool} {k : List Char → Option (List Char)}
    {c : Char} {cs : List Char} (hp : p c = true) :
    starBT p k (c :: cs) = oor (starBT p k cs) (k (c :: cs)) := by
  simp [starBT, hp]

theorem altC_watch {t : List Char} (h2 : t.all isTokenChar = true) :
    altC ((("watch?v=").data) ++ t) = matchGroup t := by
  have hq : ∀ r, r <:+ t → qvEq r = none :=
    qvEq_all_fail fun c hc =>
      ⟨token_char_ne h2 hc (by decide), token_char_ne h2 hc (by decide)⟩
  have h0 : starBT notNewline qvEq t = none := starBT_all_fail hq
  show starBT notNewline qvEq
      ('w' :: 'a' :: 't' :: 'c' :: 'h' :: '?' :: 'v' :: '=' :: t)
    = matchGroup t
  rw [starBT_cons_skip (by decide) (qvEq_cons_ne _ (by decide) (by decide))]
  rw [starBT_cons_skip (by decide) (qvEq_cons_ne _ (by decide) (by decide))]
  rw [starBT_cons_skip (by decide) (qvEq_cons_ne _ (by decide) (by decide))]
  rw [starBT_cons_skip (by decide) (qvEq_cons_ne _ (by decide) (by decide))]
  rw [starBT_cons_skip (by decide) (qvEq_cons_ne _ (by decide) (by decide))]
  have hv : starBT notNewline qvEq ('v' :: '=' :: t) = none := by
    rw [starBT_cons_skip (by decide) (qvEq_cons_ne _ (by decide) (by decide))]
    rw [starBT_cons_skip (by decide) (qvEq_cons_ne _ (by decide) (by decide))]
    exact h0
  have hlit : dropLit (("v=").data) ('v' :: '=' :: t) = some t :=
    dropLit_self (("v=").data) t
  rw [starBT_cons_true (by decide), hv, oor_none]
  show (if ('?' : Char) = '?' ∨ ('?' : Char) = '&'
      then (dropLit (("v=").data) ('v' :: '=' :: t)).bind matchGroup
      else none)
    = matchGroup t
  rw [if_pos (Or.inl rfl), hlit]
  rfl

theorem matchAt_watch {t : List Char} (h1 : 11 ≤ t.length)
    (h2 : t.all isTokenChar = true) :
    matchAt ((("youtube.com/watch?v=").data) ++ t) = some (t.take 11) := by
  have hd : dropLit (("youtube.com/").data)
      ((("youtube.com/watch?v=").data) ++ t)
      = some ((("watch?v=").data) ++ t) :=
    dropLit_self (("youtube.com/").data) ((("watch?v=").data) ++ t)
  have hconc : ∀ c ∈ (("watch?v=").data), ¬ c = '/' := by decide
  have hA : altA ((("watch?v=").data) ++ t) = none := by
    refine altA_no_slash fun c hc => ?_
    rcases List.mem_append.mp hc with h | h
    · exact hconc c h
    · exact token_char_ne h2 h (by decide)
  have hB : altB ((("watch?v=").data) ++ t) = none :=
    altB_head_ne _ (by decide) (by decide)
  simp only [matchAt, hd, hA, hB, oor_none]
  rw [altC_watch h2, matchGroup_token h1 h2]
  rfl

theorem matchAt_embed {t : List Char} (h1 : 11 ≤ t.length)
    (h2 : t.all isTokenChar = true) :
    matchAt ((("youtube.com/embed/").data) ++ t) = some (t.take 11) := by
  have hd : dropLit (("youtube.com/").data)
      ((("youtube.com/embed/").data) ++ t)
      = some ((("embed/").data) ++ t) :=
    dropLit_self (("youtube.com/").data) ((("embed/").data) ++ t)
  have hinner : altAinner t = none := altAinner_token h2
  have hA : altA ((("embed/").data) ++ t) = none := by
    show plusBT notSlash (slashThen altAinner)
        ('e' :: 'm' :: 'b' :: 'e' :: 'd' :: '/' :: t) = none
    rw [plusBT_cons_true (by decide)]
    rw [starBT_cons_skip (by decide) (slashThen_cons_ne _ (by decide))]
    rw [starBT_cons_skip (by decide) (slashThen_cons_ne _ (by decide))]
    rw [starBT_cons_skip (by decide) (slashThen_cons_ne _ (by decide))]
    rw [starBT_cons_skip (by decide) (slashThen_cons_ne _ (by decide))]
    rw [starBT_cons_false (by decide), slashThen_cons_slash]
    exact hinner
  have b1 : dropLit (("v/").data) ((("embed/").data) ++ t) = none :=
    dropLit_cons_ne _ _ (by decide)
  have b2 : dropLit (("embed/").data) ((("embed/").data) ++ t) = some t :=
    dropLit_self (("embed/").data) t
  have hB : altB ((("embed/").data) ++ t) = some (t.take 11) := by
    unfold altB
    rw [b1, b2]
    show oor none (oor (matchGroup t) _) = some (t.take 11)
    rw [oor_none, matchGroup_token h1 h2]
    rfl
  simp only [matchAt, hd, hA, oor_none, hB, oor_some]

theorem matchAt_vpath {t : List Char} (h1 : 11 ≤ t.length)
    (h2 : t.all isTokenChar = true) :
    matchAt ((("youtube.com/v/").data) ++ t) = some (t.take 11) := by
  have hd : dropLit (("youtube.com/").data) ((("youtube.com/v/").data) ++ t)
      = some ((("v/").data) ++ t) :=
    dropLit_self (("youtube.com/").data) ((("v/").data) ++ t)
  have hinner : altAinner t = none := altAinner_token h2
  have hA : altA ((("v/").data) ++ t) = none := by
    show plusBT notSlash (slashThen altAinner) ('v' :: '/' :: t) = none
    rw [plusBT_cons_true (by decide)]
    rw [starBT_cons_false (by decide), slashThen_cons_slash]
    exact hinner
  have b1 : dropLit (("v/").data) ((("v/").data) ++ t) = some t :=
    dropLit_self (("v/").data) t
  have hB : altB ((("v/").data) ++ t) = some (t.take 11) := by
    unfold altB
    rw [b1]
    show oor (matchGroup t) _ = some (t.take 11)
    rw [matchGroup_token h1 h2]
    rfl
  simp only [matchAt, hd, hA, oor_none, hB, oor_some]

theorem matchAt_youtu_be {t : List Char} (h1 : 11 ≤ t.length)
    (h2 : t.all isTokenChar = true) :
    matchAt ((("youtu.be/").data) ++ t) = some (t.take 11) := by
  have hne : ¬ ('.' : Char) = 'b' := by decide
  have hd : dropLit (("youtube.com/").data) ((("youtu.be/").data) ++ t)
      = none := by
    show dropLit ('y' :: 'o' :: 'u' :: 't' :: 'u' :: 'b' :: (("e.com/").data))
        ('y' :: 'o' :: 'u' :: 't' :: 'u' :: '.' :: ((("be/").data) ++ t))
      = none
    simp [dropLit, hne]
  have hyb : dropLit (("youtu.be/").data) ((("youtu.be/").data) ++ t)
      = some t :=
    dropLit_self (("youtu.be/").data) t
  simp only [matchAt, hd]
  unfold tryYoutuBe
  rw [hyb]
  exact matchGroup_token h1 h2

theorem extract_watch_tok {t : List Char} (h1 : 11 ≤ t.length)
    (h2 : t.all isTokenChar = true) :
    extractVideoId ((("https://www.youtube.com/watch?v=").data) ++ t)
      = some (t.take 11) := by
  have hcat : ("https://www.youtube.com/watch?v=").data
      = (("https://www.").data) ++ (("youtube.com/watch?v=").data) := by
    decide
  show searchFrom ((("https://www.youtube.com/watch?v=").data) ++ t)
    = some (t.take 11)
  rw [hcat, List.append_assoc, searchFrom_append_skip _ _ (by decide)]
  exact searchFrom_cons_found (matchAt_watch h1 h2)

theorem extract_youtu_be_tok {t : List Char} (h1 : 11 ≤ t.length)
    (h2 : t.all isTokenChar = true) :
    extractVideoId ((("https://youtu.be/").data) ++ t) = some (t.take 11) := by
  have hcat : ("https://youtu.be/").data
      = (("https://").data) ++ (("youtu.be/").data) := by decide
  show searchFrom ((("https://youtu.be/").data) ++ t) = some (t.take 11)
  rw [hcat, List.append_assoc, searchFrom_append_skip _ _ (by decide)]
  exact searchFrom_cons_found (matchAt_youtu_be h1 h2)

theorem extract_embed_tok {t : List Char} (h1 : 11 ≤ t.length)
    (h2 : t.all isTokenChar = true) :
    extractVideoId ((("https://www.youtube.com/embed/").data) ++ t)
      = some (t.take 11) := by
  have hcat : ("https://www.youtube.com/embed/").data
      = (("https://www.").data) ++ (("youtube.com/embed/").data) := by decide
  show searchFrom ((("https://www.youtube.com/embed/").data) ++ t)
    = some (t.take 11)
  rw [hcat, List.append_assoc, searchFrom_append_skip _ _ (by decide)]
  exact searchFrom_cons_found (matchAt_embed h1 h2)

theorem extract_vpath_tok {t : List Char} (h1 : 11 ≤ t.length)
    (h2 : t.all isTokenChar = true) :
    extractVideoId ((("https://www.youtube.com/v/").data) ++ t)
      = some (t.take 11) := by
  have hcat : ("https://www.youtube.com/v/").data
      = (("https://www.").data) ++ (("youtube.com/v/").data) := by decide
  show searchFrom ((("https://www.youtube.com/v/").data) ++ t)
    = some (t.take 11)
  rw [hcat, List.append_assoc, searchFrom_append_skip _ _ (by decide)]
  exact searchFrom_cons_found (matchAt_vpath h1 h2)

/-- Claim C5, counterexample: the URL below contains none of the four
spec-listed forms (`watch?v=ID`, `youtu.be/ID`, `embed/ID`, `v/ID`)
followed by an 11-character token, yet `extract_video_id` returns a token,
so extraction does not reject every URL that lacks such a token. -/
theorem claim_extraction_listed_forms_counterexample :
    specListedForm (("https://youtube.com/a/b/cdefghijkmn").data) = false ∧
    extract_video_id ("https://youtube.com/a/b/cdefghijkmn")
      = some ("cdefghijkmn") := by
  constructor
  · decide
  · decide

/-- Claim C5, amended: identifier extraction returns the 11-character token
for the four forms watch?v=ID, youtu.be/ID, embed/ID and v/ID; however it
does not reject every URL containing no such token — the generic
youtube.com path form (two path segments before an 11-character token)
also yields the token. -/
theorem claim_extraction_listed_forms_amended (t : List Char)
    (h1 : t.length = 11) (h2 : t.all isTokenChar = true) :
    extractVideoId ((("https://www.youtube.com/watch?v=").data) ++ t)
        = some t ∧
    extractVideoId ((("https://youtu.be/").data) ++ t) = some t ∧
    extractVideoId ((("https://www.youtube.com/embed/").data) ++ t)
        = some t ∧
    extractVideoId ((("https://www.youtube.com/v/").data) ++ t) = some t ∧
    extract_video_id ("https://youtube.com/a/b/cdefghijkmn")
        = some ("cdefghijkmn") := by
  have hle : 11 ≤ t.length := le_of_eq h1.symm
  have htake : t.take 11 = t := by
    rw [← h1]
    exact List.take_length t
  refine ⟨?_, ?_, ?_, ?_, by decide⟩
  · rw [extract_watch_tok hle h2, htake]
  · rw [extract_youtu_be_tok hle h2, htake]
  · rw [extract_embed_tok hle h2, htake]
  · rw [extract_vpath_tok hle h2, htake]

/-- Witness for the amended C5 at the concrete token jNQXAC9IVRw. -/
theorem claim_extraction_listed_forms_amended_witness :
    extractVideoId ((("https://www.youtube.com/watch?v=").data)
        ++ (("jNQXAC9IVRw").data)) = some (("jNQXAC9IVRw").data) ∧
    extractVideoId ((("https://youtu.be/").data) ++ (("jNQXAC9IVRw").data))
        = some (("jNQXAC9IVRw").data) ∧
    extractVideoId ((("https://www.youtube.com/embed/").data)
        ++ (("jNQXAC9IVRw").data)) = some (("jNQXAC9IVRw").data) ∧
    extractVideoId ((("https://www.youtube.com/v/").data)
        ++ (("jNQXAC9IVRw").data)) = some (("jNQXAC9IVRw").data) ∧
    extract_video_id ("https://youtube.com/a/b/cdefghijkmn")
        = some ("cdefghijkmn") :=
  claim_extraction_listed_forms_amended (("jNQXAC9IVRw").data)
    (by decide) (by decide)

/-- Claim C9: a candidate token longer than 11 characters in a recognized
position (here: watch?v= followed by 12 or more non-delimiter characters)
is not rejected; extraction returns the first 11 characters of it. -/
theorem claim_long_token_first_eleven (t : List Char) (h1 : 12 ≤ t.length)
    (h2 : t.all isTokenChar = true) :
    extractVideoId ((("https://www.youtube.com/watch?v=").data) ++ t)
      = some (t.take 11) :=
  extract_watch_tok (by omega) h2

/-- Witness for C9 at a concrete 12-character token. -/
theorem claim_long_token_first_eleven_witness :
    extractVideoId ((("https://www.youtube.com/watch?v=").data)
        ++ (("ABCDEFGHIJKL").data))
      = some (((("ABCDEFGHIJKL").data)).take 11) :=
  claim_long_token_first_eleven (("ABCDEFGHIJKL").data) (by decide) (by decide)

/-- Claim C1: for a found job, an exception-free run of the task ends with
Job.status=completed, and every URL whose identifier cannot be extracted
yields a Transcript with status=failed, error message 'Invalid YouTube
URL' and null video_id — for every fetch collaborator, hence regardless of
the outcomes of the other URLs. -/
theorem claim_job_completed_and_invalid_urls_failed
    (fetch : List Char → FetchResult) (store : Option Job)
    (job_id : List Char) (urls : List (List Char))
    (callback_url : Option (List Char)) (now : Nat) (callbackOk : Bool)
    (j : Job) (i : Nat) (url : List Char)
    (hst : store = some j) (hu : urls[i]? = some url)
    (hx : extractVideoId url = none) :
    ((transcribeVideosRun fetch store job_id urls callback_url now
        callbackOk).job).map Job.status = some JobStatus.completed ∧
    (transcribeVideosRun fetch store job_id urls callback_url now
        callbackOk).transcripts[i]?
      = some { job_id := job_id, url := url, video_id := none,
               transcript_data := none, status := TranscriptStatus.failed,
               error_message := some invalidUrlMsg } := by
  subst hst
  have htr : (transcribeVideosRun fetch (some j) job_id urls callback_url now
      callbackOk).transcripts
      = urls.map fun u => (processUrl fetch job_id u).1 := by
    cases callback_url <;> rfl
  have hjb : ((transcribeVideosRun fetch (some j) job_id urls callback_url now
      callbackOk).job).map Job.status = some JobStatus.completed := by
    cases callback_url <;> rfl
  refine ⟨hjb, ?_⟩
  rw [htr, List.getElem?_map, hu]
  simp [processUrl, hx]

/-- Claim C2, run at the failing input: the task body writes
status=processing (and then completed) even when the stored job is already
in the terminal status cancelled, so the status regresses
cancelled→processing, contradicting monotonicity of the status machine. -/
theorem claim_cancelled_job_rewritten_to_processing :
    jobCancelledW.status = JobStatus.cancelled ∧
    (transcribeVideosRun fetchErrW (some jobCancelledW) (("job-3").data) []
        none 1 true).statusWrites
      = [JobStatus.processing, JobStatus.completed] ∧
    ((transcribeVideosRun fetchErrW (some jobCancelledW) (("job-3").data) []
        none 1 true).job).map Job.status = some JobStatus.completed :=
  ⟨rfl, rfl, rfl⟩

/-- Claim C4: in an exception-free run with the job found, every processed
URL inserts exactly one Transcript row, with status pending, as its first
event — hence before any fetch attempt — and the fetch collaborator is
invoked for a URL exactly when identifier extraction succeeded; the
create events of the whole run are exactly one per submitted URL, in
submission order. -/
theorem claim_transcript_created_before_fetch
    (fetch : List Char → FetchResult) (store : Option Job)
    (job_id : List Char) (urls : List (List Char))
    (callback_url : Option (List Char)) (now : Nat) (callbackOk : Bool)
    (j : Job) (hst : store = some j) :
    ((transcribeVideosRun fetch store job_id urls callback_url now
        callbackOk).events.filter isCreateEvent
      = urls.map fun u =>
          Event.createTranscript u (extractVideoId u)
            TranscriptStatus.pending) ∧
    (∀ u ∈ urls, (processUrl fetch job_id u).2
      = Event.createTranscript u (extractVideoId u) TranscriptStatus.pending
        :: (match extractVideoId u with
            | none => []
            | some v => [Event.fetchCall v])) := by
  subst hst
  have key : ∀ us : List (List Char),
      ((us.map fun u => (processUrl fetch job_id u).2).flatten).filter
          isCreateEvent
        = us.map fun u =>
            Event.createTranscript u (extractVideoId u)
              TranscriptStatus.pending := by
    intro us
    induction us with
    | nil => rfl
    | cons u rest ih =>
      have hu : ((processUrl fetch job_id u).2).filter isCreateEvent
          = [Event.createTranscript u (extractVideoId u)
              TranscriptStatus.pending] := by
        cases hx : extractVideoId u with
        | none => simp [processUrl, hx, isCreateEvent]
        | some v =>
          cases hf : fetch v <;> simp [processUrl, hx, hf, isCreateEvent]
      simp [List.filter_append, ih, hu]
  constructor
  · have hev : (transcribeVideosRun fetch (some j) job_id urls callback_url
        now callbackOk).events.filter isCreateEvent
        = ((urls.map fun u => (processUrl fetch job_id u).2).flatten).filter
            isCreateEvent := by
      cases callback_url with
      | none => rfl
      | some cb =>
        show (((urls.map fun u => (processUrl fetch job_id u).2).flatten)
            ++ [Event.callbackPost cb callbackOk]).filter isCreateEvent = _
        rw [List.filter_append]
        simp [isCreateEvent]
    rw [hev, key]
  · intro u _
    cases hx : extractVideoId u with
    | none => simp [processUrl, hx]
    | some v => cases hf : fetch v <;> simp [processUrl, hx, hf]

/-- Witness for C1 at a concrete unextractable URL. -/
theorem claim_job_completed_and_invalid_urls_failed_witness :
    ((transcribeVideosRun fetchErrW (some jobPendingW) (("job-1").data)
        [("notaurl").data] none 7 true).job).map Job.status
      = some JobStatus.completed ∧
    (transcribeVideosRun fetchErrW (some jobPendingW) (("job-1").data)
        [("notaurl").data] none 7 true).transcripts[0]?
      = some { job_id := ("job-1").data, url := ("notaurl").data,
               video_id := none, transcript_data := none,
               status := TranscriptStatus.failed,
               error_message := some invalidUrlMsg } :=
  claim_job_completed_and_invalid_urls_failed fetchErrW (some jobPendingW)
    (("job-1").data) [("notaurl").data] none 7 true jobPendingW 0
    (("notaurl").data) rfl rfl (by decide)

/-- Witness for C4 at a concrete two-URL job. -/
theorem claim_transcript_created_before_fetch_witness :
    ((transcribeVideosRun fetchErrW (some jobPendingW) (("job-1").data)
        [("notaurl").data, ("https://youtu.be/jNQXAC9IVRw").data] none 7
        true).events.filter isCreateEvent
      = [("notaurl").data,
         ("https://youtu.be/jNQXAC9IVRw").data].map fun u =>
          Event.createTranscript u (extractVideoId u)
            TranscriptStatus.pending) ∧
    (∀ u ∈ [("notaurl").data, ("https://youtu.be/jNQXAC9IVRw").data],
      (processUrl fetchErrW (("job-1").data) u).2
      = Event.createTranscript u (extractVideoId u) TranscriptStatus.pending
        :: (match extractVideoId u with
            | none => []
            | some v => [Event.fetchCall v])) :=
  claim_transcript_created_before_fetch fetchErrW (some jobPendingW)
    (("job-1").data) [("notaurl").data, ("https://youtu.be/jNQXAC9IVRw").data]
    none 7 true jobPendingW rfl

/-- Claim C3: when an unhandled exception escapes the task body and the job
row is found by the handler, the job is persisted with status=failed and
the exception text; while fewer than max_retries (3) retries have been
used, the task is requeued with countdown 60 * 2 ^ retries (exponential
backoff over the base delay of 60), and once the attempts are exhausted no
requeue is signalled, leaving the persisted status failed. -/
theorem claim_exception_failed_and_backoff_retry (j : Job)
    (msg : List Char) (retries : Nat) :
    ∃ j2, handleTaskException (some j) msg retries
        = HandlerResult.handled j2
            (if retries < maxRetries
             then RetryOutcome.retried (60 * 2 ^ retries)
             else RetryOutcome.exhausted)
      ∧ j2.status = JobStatus.failed ∧ j2.error_message = some msg
      ∧ maxRetries = 3 :=
  ⟨_, rfl, rfl, rfl, rfl⟩

/-- Claim C10: the exception handler dereferences the re-loaded job without
a null check, so when the job row is absent the handler itself raises and
produces neither the failed-status persist nor a retry signal. -/
theorem claim_handler_raises_when_job_missing (msg : List Char)
    (retries : Nat) :
    handleTaskException none msg retries = HandlerResult.raised ∧
    ∀ j2 out, ¬ handleTaskException none msg retries
        = HandlerResult.handled j2 out :=
  ⟨rfl, fun _ _ h => HandlerResult.noConfusion h⟩

/-- Claim C6: a per-item fetch failure marks the Transcript failed, and its
error message is the curated hint exactly when the lower-cased failure
text contains one of the known no-captions substrings, and the raw failure
text verbatim otherwise. -/
theorem claim_fetch_failure_classification
    (fetch : List Char → FetchResult) (job_id url v msg : List Char)
    (hv : extractVideoId url = some v) (hf : fetch v = FetchResult.err msg) :
    (processUrl fetch job_id url).1.status = TranscriptStatus.failed ∧
    (isNoCaptionsError msg = true →
      (processUrl fetch job_id url).1.error_message = some noCaptionsHint) ∧
    (isNoCaptionsError msg = false →
      (processUrl fetch job_id url).1.error_message = some msg) := by
  constructor
  · simp [processUrl, hv, hf]
  constructor
  · intro h
    simp [processUrl, hv, hf, classifyFetchError, h]
  · intro h
    simp [processUrl, hv, hf, classifyFetchError, h]

/-- Witness for C6 at a concrete no-captions failure text. -/
theorem claim_fetch_failure_classification_witness :
    (processUrl fetchErrW (("job-1").data)
        (("https://youtu.be/jNQXAC9IVRw").data)).1.status
      = TranscriptStatus.failed ∧
    (isNoCaptionsError (("not available").data) = true →
      (processUrl fetchErrW (("job-1").data)
          (("https://youtu.be/jNQXAC9IVRw").data)).1.error_message
        = some noCaptionsHint) ∧
    (isNoCaptionsError (("not available").data) = false →
      (processUrl fetchErrW (("job-1").data)
          (("https://youtu.be/jNQXAC9IVRw").data)).1.error_message
        = some (("not available").data)) :=
  claim_fetch_failure_classification fetchErrW (("job-1").data)
    (("https://youtu.be/jNQXAC9IVRw").data) (("jNQXAC9IVRw").data)
    (("not available").data) (by decide) rfl

/-- Claim C7: the callback delivery outcome is absorbed — the final job of
a completed run is identical whether delivery succeeds or fails (so
Job.status stays completed), no retry is ever signalled by the
exception-free run, and no callback is attempted when callback_url is
absent. -/
theorem claim_callback_failure_absorbed
    (fetch : List Char → FetchResult) (store : Option Job)
    (job_id : List Char) (urls : List (List Char))
    (callback_url : Option (List Char)) (now : Nat) (j : Job)
    (hst : store = some j) :
    (((transcribeVideosRun fetch store job_id urls callback_url now
        false).job).map Job.status = some JobStatus.completed) ∧
    ((transcribeVideosRun fetch store job_id urls callback_url now false).job
      = (transcribeVideosRun fetch store job_id urls callback_url now
          true).job) ∧
    (∀ b, (transcribeVideosRun fetch store job_id urls callback_url now
        b).retrySignal = none) ∧
    (callback_url = none →
      ∀ b, (transcribeVideosRun fetch store job_id urls callback_url now
          b).callbackAttempted = false) := by
  subst hst
  refine ⟨?_, ?_, ?_, ?_⟩
  · cases callback_url <;> rfl
  · cases callback_url <;> rfl
  · intro b
    cases callback_url <;> rfl
  · intro h b
    subst h
    rfl

/-- Witness for C7 at a concrete run without a callback URL. -/
theorem claim_callback_failure_absorbed_witness :
    (((transcribeVideosRun fetchErrW (some jobPendingW) (("job-1").data)
        [("notaurl").data] none 7 false).job).map Job.status
      = some JobStatus.completed) ∧
    ((transcribeVideosRun fetchErrW (some jobPendingW) (("job-1").data)
        [("notaurl").data] none 7 false).job
      = (transcribeVideosRun fetchErrW (some jobPendingW) (("job-1").data)
          [("notaurl").data] none 7 true).job) ∧
    (∀ b, (transcribeVideosRun fetchErrW (some jobPendingW) (("job-1").data)
        [("notaurl").data] none 7 b).retrySignal = none) ∧
    ((none : Option (List Char)) = none →
      ∀ b, (transcribeVideosRun fetchErrW (some jobPendingW)
          (("job-1").data) [("notaurl").data] none 7 b).callbackAttempted
        = false) :=
  claim_callback_failure_absorbed fetchErrW (some jobPendingW)
    (("job-1").data) [("notaurl").data] none 7 jobPendingW rfl

/-- Claim C8: cancelling an existing job succeeds exactly when its current
status is pending or processing — the status becomes cancelled and the
timestamp is updated with a 200 response; any other status yields a 400
conflict and the job is left unchanged. -/
theorem claim_cancel_pending_processing_only (j : Job) (now : Nat) :
    ((j.status = JobStatus.pending ∨ j.status = JobStatus.processing) →
      cancelJob (some j) now
        = (200, some { j with status := JobStatus.cancelled,
                              updated_at := now })) ∧
    (¬(j.status = JobStatus.pending ∨ j.status = JobStatus.processing) →
      cancelJob (some j) now = (400, some j)) := by
  constructor
  · intro h
    simp only [cancelJob, if_pos h]
  · intro h
    simp only [cancelJob, if_neg h]

/-- Witness for C8: a pending job cancels with 200, a completed one is
rejected with 400 and unchanged. -/
theorem claim_cancel_pending_processing_only_witness :
    (cancelJob (some jobPendingW) 5
      = (200,
          some { jobPendingW with
                  status := JobStatus.cancelled, updated_at := 5 })) ∧
    (cancelJob (some jobCompletedW) 5 = (400, some jobCompletedW)) :=
  ⟨(claim_cancel_pending_processing_only jobPendingW 5).1 (Or.inl rfl),
   (claim_cancel_pending_processing_only jobCompletedW 5).2 (by decide)⟩
